import Mathlib

/-!
Shallow embedding of the `databricks-resource-monitor` policy-enforcement
engine (`src/handlers/base.py`, the concrete handlers in
`src/handlers/model_endpoints.py` and
`src/databricks_resource_monitor/handlers/apps.py`, the configuration
loader in `src/databricks_resource_monitor/utils/config.py`, and the
post-check control flow of `src/main.py`), together with theorems settling
the frozen claims about it.

Modelling conventions:
* a Python resource dictionary becomes the structure `ResourceRecord`;
  a field read with `dict.get(k)` becomes `Option` (with `none` standing
  for "key absent or value `None`"), and `dict.get('name', '')` becomes
  `Option String` read through `Option.getD ""`;
* the abstract methods `get_resource_id` / `get_resource_details` of the
  handler contract are passed to the shared enforcement logic as function
  parameters `getId` / `getDetails`;
* `delete_resource`, which in Python returns `True`/`False` or raises, is
  modelled by an oracle of type `String → DeleteOutcome`;
* exceptions raised by `handle_violations` become the `Except` error
  branch, with `HVError` distinguishing the alert exception from the
  invalid-mode `ValueError`.
-/

namespace DRM

/-- Uniform resource record shaped by the concrete handlers
(`list_resources` in `apps.py` / `model_endpoints.py`).  The opaque
`raw` handle of the Python dictionary is not interpreted by the engine
and is omitted.  `name` and `creator` are `Option` because the shared
logic in `base.py` reads them with `dict.get`, where `none` models
"key absent or value `None`". -/
structure ResourceRecord where
  id : String
  name : Option String
  state : String
  creator : Option String
  creationTime : Option Int
  deriving Repr, DecidableEq

/-- Violation record created during the check pass of
`ResourceHandler.check_resources`: `{'id': ..., 'details': ...,
'action_taken': None}`. -/
structure Violation where
  id : String
  details : String
  action_taken : Option String
  deriving Repr, DecidableEq

/-- Embedding of Python's `str.startswith`: the characters of `pre` are
a prefix of the characters of `s`. -/
def startswith (s pre : String) : Bool :=
  pre.data.isPrefixOf s.data

/-- Embedding of `ResourceHandler.is_databricks_managed`
(`base.py` lines 74-88):

    creator = resource.get('creator')
    name = resource.get('name', '')
    return creator is None and name.startswith('databricks-')
-/
def is_databricks_managed (r : ResourceRecord) : Bool :=
  r.creator.isNone && startswith (r.name.getD "") "databricks-"

/-- Loop body accumulation of `ResourceHandler.check_resources`
(`base.py` lines 100-131): walk the listed resources, skip a resource
whose id is whitelisted, then skip it when the managed filter is on and
the managed heuristic fires, otherwise append a violation record.
`getId` and `getDetails` are the abstract per-handler projections
`get_resource_id` / `get_resource_details`. -/
def checkLoop (getId : ResourceRecord → String) (getDetails : ResourceRecord → String)
    (whitelist : List String) (ignore_databricks_managed : Bool)
    (acc : List Violation) : List ResourceRecord → List Violation
  | [] => acc
  | r :: rest =>
    if whitelist.contains (getId r) then
      checkLoop getId getDetails whitelist ignore_databricks_managed acc rest
    else if ignore_databricks_managed && is_databricks_managed r then
      checkLoop getId getDetails whitelist ignore_databricks_managed acc rest
    else
      checkLoop getId getDetails whitelist ignore_databricks_managed
        (acc ++ [{ id := getId r, details := getDetails r, action_taken := none }]) rest

/-- Embedding of `ResourceHandler.check_resources` run against a fixed
listing `rs` (the returned list of violations; `self.violations = []`
resets the accumulator before the loop).  The `dry_run` flag of the
Python method only changes log lines, not the computed violations, so it
does not appear here; the stateful wrapper `check_resources_method`
below carries the instance state. -/
def check_resources (getId : ResourceRecord → String) (getDetails : ResourceRecord → String)
    (whitelist : List String) (ignore_databricks_managed : Bool)
    (rs : List ResourceRecord) : List Violation :=
  checkLoop getId getDetails whitelist ignore_databricks_managed [] rs

/-- Mutable per-handler state of a `ResourceHandler` instance
(`__init__` in `base.py`): the whitelist, the managed-filter flag and
the `self.violations` working list. -/
structure HandlerState where
  whitelist : List String
  ignore_databricks_managed : Bool
  violations : List Violation
  deriving Repr, DecidableEq

/-- Stateful embedding of `check_resources`: the method first resets
`self.violations` to `[]`, recomputes the violation list from the
listing, stores it in the state and returns it. -/
def check_resources_method (getId : ResourceRecord → String)
    (getDetails : ResourceRecord → String) (s : HandlerState)
    (rs : List ResourceRecord) : HandlerState × List Violation :=
  let vs := checkLoop getId getDetails s.whitelist s.ignore_databricks_managed [] rs
  ({ s with violations := vs }, vs)

/-- Outcome of one call to the abstract `delete_resource(resource_id)`:
the Python method returns `True` (`ok`), returns `False` (`failed`), or
raises an exception carrying a message (`err`). -/
inductive DeleteOutcome where
  | ok : DeleteOutcome
  | failed : DeleteOutcome
  | err : String → DeleteOutcome
  deriving Repr, DecidableEq

/-- Summary dictionary built by `ResourceHandler.handle_violations`:
`{'status': ..., 'violations': ..., 'actions': [...]}`. -/
structure ActionReport where
  status : String
  violations : Nat
  actions : List String
  deriving Repr, DecidableEq

/-- Exceptions that `handle_violations` can raise: the deliberate alert
`Exception` and the `ValueError` for an unrecognised `action_mode`. -/
inductive HVError where
  | alert : String → HVError
  | invalidMode : String → HVError
  deriving Repr, DecidableEq

/-- Delete-mode loop of `handle_violations` (`base.py` lines 154-174):
walks the violations in order, attempts deletion of each inside a
`try`/`except`, records the per-violation outcome in `action_taken` and
an action string, and downgrades the sticky status to
`'partial_failure'` on any non-success.  Returns (final status, action
strings in order, updated violations in order). -/
def deleteLoop (delete_resource : String → DeleteOutcome) :
    List Violation → String × List String × List Violation
  | [] => ("success", [], [])
  | v :: rest =>
    let (st, acts, vs) := deleteLoop delete_resource rest
    match delete_resource v.id with
    | .ok =>
        (st, ("Deleted resource " ++ v.id) :: acts,
          { v with action_taken := some "deleted" } :: vs)
    | .failed =>
        ("partial_failure", ("Failed to delete resource " ++ v.id) :: acts,
          { v with action_taken := some "delete_failed" } :: vs)
    | .err e =>
        ("partial_failure",
          ("Error deleting resource " ++ v.id ++ ": " ++ e) :: acts,
          { v with action_taken := some "error" } :: vs)

/-- Alert message built by the alert branch of `handle_violations`
(`base.py` lines 176-191): a header with the violation count, one
`- id: details` line per violation joined with newlines, and a closing
request line. -/
def alertMessage (vs : List Violation) : String :=
  let violationDetails :=
    String.intercalate "\n" (vs.map fun v => "- " ++ v.id ++ ": " ++ v.details)
  "ALERT: Found " ++ toString vs.length ++ " unauthorized resources:\n"
    ++ violationDetails ++ "\n\nPlease review and take appropriate action."

/-- Embedding of `ResourceHandler.handle_violations` (`base.py` lines
133-196).  The empty-violations early return comes first; then the three
`action_mode` branches.  The successful result carries the summary
report together with the violations list as mutated by the delete loop
(`action_taken` updated in place in Python). -/
def handle_violations (delete_resource : String → DeleteOutcome)
    (vs : List Violation) (action_mode : String) :
    Except HVError (ActionReport × List Violation) :=
  if vs.isEmpty then
    .ok ({ status := "success", violations := 0, actions := [] }, vs)
  else if action_mode == "delete" then
    .ok ({ status := (deleteLoop delete_resource vs).1,
           violations := vs.length,
           actions := (deleteLoop delete_resource vs).2.1 },
         (deleteLoop delete_resource vs).2.2)
  else if action_mode == "alert" then
    .error (.alert (alertMessage vs))
  else
    .error (.invalidMode
      ("Invalid action_mode: " ++ action_mode ++ ". Must be 'delete' or 'alert'"))

/-- Parsed JSON values, as handed to the shape-dispatch part of
`ConfigLoader.load_resource_config` by `json.load` /
`json.loads`.  Objects are association lists with unique keys (the
parser of Python's `json` module keeps one value per key). -/
inductive Json where
  | null : Json
  | bool : Bool → Json
  | num : Int → Json
  | str : String → Json
  | arr : List Json → Json
  | obj : List (String × Json) → Json

/-- Dictionary lookup used for `'whitelist' in data` / `data['whitelist']`
and `data.get('ignore_databricks_managed', False)`. -/
def Json.lookup (fields : List (String × Json)) (key : String) : Option Json :=
  match fields with
  | [] => none
  | (k, v) :: rest => if k == key then some v else Json.lookup rest key

/-- Result of the loader: the Python `ResourceConfig.__init__` stores the
`whitelist` and `ignore_databricks_managed` values exactly as extracted
from the parsed JSON, without further shape checks, so both fields stay
`Json` here. -/
structure LoadedResourceConfig where
  whitelist : Json
  ignore_databricks_managed : Json

/-- Shape-dispatch of `ConfigLoader.load_resource_config`
(`databricks_resource_monitor/utils/config.py` lines 65-85), applied to
already-parsed JSON `data`:

* a list yields `ResourceConfig(data, False)`;
* a dict with a `'whitelist'` key yields
  `ResourceConfig(data['whitelist'], data.get('ignore_databricks_managed', False))`;
* a dict without the key raises
  `ValueError("Object format must contain 'whitelist' key")`;
* anything else raises `ValueError("Invalid config format. ...")`.

The raised `ValueError` is the error the spec names
`MalformedConfigError`; its message is the `Except.error` payload. -/
def load_resource_config (data : Json) : Except String LoadedResourceConfig :=
  match data with
  | .arr l => .ok { whitelist := .arr l, ignore_databricks_managed := .bool false }
  | .obj fields =>
    match Json.lookup fields "whitelist" with
    | some w =>
        .ok { whitelist := w,
              ignore_databricks_managed :=
                (Json.lookup fields "ignore_databricks_managed").getD (.bool false) }
    | none => .error "Object format must contain 'whitelist' key"
  | _ => .error "Invalid config format. Expected array or object with 'whitelist' key"

/-- Platform object returned by the SDK listing call, as read by
`AppsHandler.list_resources` (`apps.py` lines 17-25).  An `Option`
wrapper models `hasattr`: `none` means the attribute is absent; for
`creator` the inner `Option` distinguishes an attribute whose value is
Python `None` from a string value. -/
structure PlatformApp where
  name : String
  creator : Option (Option String)
  state : Option String
  create_time : Option Int
  deriving Repr, DecidableEq

/-- Record built per app by `AppsHandler.list_resources`:

    {'id': app.name, 'name': app.name,
     'state': ... if hasattr ... else 'UNKNOWN',
     'creator': app.creator if hasattr(app, 'creator') else 'UNKNOWN',
     'creation_time': app.create_time if hasattr ... else None, ...}
-/
def appRecord (a : PlatformApp) : ResourceRecord :=
  { id := a.name
    name := some a.name
    state := a.state.getD "UNKNOWN"
    creator := match a.creator with
      | some v => v
      | none => some "UNKNOWN"
    creationTime := a.create_time }

/-- Platform object returned by the serving-endpoints listing call, as
read by `ModelEndpointHandler.list_resources`
(`model_endpoints.py` lines 17-25). -/
structure PlatformEndpoint where
  name : String
  creator : Option (Option String)
  state_config_update : Option String
  creation_timestamp : Option Int
  deriving Repr, DecidableEq

/-- Record built per endpoint by `ModelEndpointHandler.list_resources`
(name doubles as id; state comes from the nested
`endpoint.state.config_update`). -/
def endpointRecord (e : PlatformEndpoint) : ResourceRecord :=
  { id := e.name
    name := some e.name
    state := e.state_config_update.getD "UNKNOWN"
    creator := match e.creator with
      | some v => v
      | none => some "UNKNOWN"
    creationTime := e.creation_timestamp }

/-- Post-check control flow of `main` (`main.py` lines 89-115), for a
fixed listing: compute the violations, return early when there are none,
call `handle_violations` only when `dry_run` is off, and in dry-run mode
only log.  `none` in the success branch marks a run that never reached
the dispatcher. -/
def runMonitor (getId : ResourceRecord → String) (getDetails : ResourceRecord → String)
    (whitelist : List String) (ignore_databricks_managed : Bool)
    (rs : List ResourceRecord) (delete_resource : String → DeleteOutcome)
    (action_mode : String) (dryRun : Bool) :
    Except HVError (Option (ActionReport × List Violation)) :=
  let vs := check_resources getId getDetails whitelist ignore_databricks_managed rs
  if vs.isEmpty then .ok none
  else if !dryRun then (handle_violations delete_resource vs action_mode).map some
  else .ok none

/-- Violation record built from a resource record, as the check loop
builds it. -/
def mkViolationOf (getId : ResourceRecord → String)
    (getDetails : ResourceRecord → String) (r : ResourceRecord) : Violation :=
  { id := getId r, details := getDetails r, action_taken := none }

/-- Classification predicate written after the spec invariant (for the
refinement claim about `check_resources`): a resource is a violation iff
its id is absent from the whitelist AND (the managed filter is disabled
OR the resource does not match the managed heuristic). -/
def isViolationSpec (getId : ResourceRecord → String) (whitelist : List String)
    (ignore_databricks_managed : Bool) (r : ResourceRecord) : Bool :=
  !(whitelist.contains (getId r))
    && (!ignore_databricks_managed || !(is_databricks_managed r))

/-- Label written by the spec into `action_taken` for each per-violation
delete outcome: `deleted` on success, `delete_failed` on a clean
negative result, `error` on a raised exception. -/
def outcomeLabel : DeleteOutcome → String
  | .ok => "deleted"
  | .failed => "delete_failed"
  | .err _ => "error"

/-- Sample platform app without a `creator` attribute, used to evaluate
the sentinel behaviour on concrete data. -/
def sampleApp : PlatformApp :=
  { name := "databricks-app", creator := none, state := some "RUNNING",
    create_time := none }

/-- Sample serving endpoint without a `creator` attribute. -/
def sampleEndpoint : PlatformEndpoint :=
  { name := "databricks-ep", creator := none,
    state_config_update := some "READY", creation_timestamp := some 17 }

/-- Sample violation list with three entries, used to evaluate the
dispatcher on concrete data. -/
def sampleViolations : List Violation :=
  [⟨"a", "da", none⟩, ⟨"b", "db", none⟩, ⟨"c", "dc", none⟩]

/-- Sample delete oracle: deleting `a` succeeds, deleting `b` returns
`False`, anything else raises. -/
def sampleOracle : String → DeleteOutcome := fun i =>
  if i == "a" then .ok else if i == "b" then .failed else .err "boom"

/-! ## Lemmas about the check pass -/

/-- Unfolding of the check loop: the accumulated violations are the
accumulator followed by the spec-classified violations of the remaining
resources, in listing order. -/
theorem checkLoop_eq (getId getDetails : ResourceRecord → String)
    (wl : List String) (ig : Bool) :
    ∀ (rs : List ResourceRecord) (acc : List Violation),
      checkLoop getId getDetails wl ig acc rs
        = acc ++ (rs.filter (isViolationSpec getId wl ig)).map
            (mkViolationOf getId getDetails) := by
  intro rs
  induction rs with
  | nil => intro acc; simp [checkLoop]
  | cons r rest ih =>
    intro acc
    rw [checkLoop]
    cases h1 : wl.contains (getId r) with
    | true =>
      simp only [if_pos rfl, Bool.false_eq_true, if_false]
      rw [ih]
      have hs : isViolationSpec getId wl ig r = false := by
        unfold isViolationSpec
        rw [h1]
        rfl
      simp [List.filter_cons, hs]
    | false =>
      simp only [Bool.false_eq_true, if_false]
      cases h2 : ig && is_databricks_managed r with
      | true =>
        simp only [if_pos rfl]
        rw [ih]
        have hs : isViolationSpec getId wl ig r = false := by
          rcases Bool.and_eq_true_iff.mp h2 with ⟨hig, hm⟩
          simp [isViolationSpec, h1, hig, hm]
        simp [List.filter_cons, hs]
      | false =>
        simp only [Bool.false_eq_true, if_false]
        rw [ih]
        have hs : isViolationSpec getId wl ig r = true := by
          have := Bool.and_eq_false_iff.mp h2
          simp only [isViolationSpec, h1, Bool.not_false, Bool.true_and]
          rcases this with hig | hm
          · simp [hig]
          · simp [hm]
        simp [List.filter_cons, hs, mkViolationOf]

/-! ## Claim theorems -/

/-- C1: `check_resources` classifies a listed resource as a violation
iff its id is absent from the whitelist AND (the managed filter is off
OR the resource does not match the managed heuristic); consequently
every reported violation carries an id that is not whitelisted, so a
whitelisted resource is never a violation even when it matches the
managed heuristic. -/
theorem check_resources_classification
    (getId getDetails : ResourceRecord → String) (wl : List String)
    (ig : Bool) (rs : List ResourceRecord) :
    check_resources getId getDetails wl ig rs
        = (rs.filter (isViolationSpec getId wl ig)).map
            (mkViolationOf getId getDetails)
      ∧ (check_resources getId getDetails wl ig rs).all
          (fun v => !(wl.contains v.id)) = true := by
  have heq := checkLoop_eq getId getDetails wl ig rs []
  refine ⟨by simpa [check_resources] using heq, ?_⟩
  rw [check_resources, heq]
  simp only [List.nil_append, List.all_eq_true, List.mem_map, List.mem_filter]
  rintro v ⟨r, ⟨_, hr⟩, rfl⟩
  have h1 := (Bool.and_eq_true_iff.mp hr).1
  simpa [mkViolationOf] using h1

/-- C2: the managed-resource heuristic holds iff the creator is absent
and the name starts with the reserved prefix; the three spec examples
evaluate accordingly. -/
theorem is_databricks_managed_spec :
    (∀ r : ResourceRecord, is_databricks_managed r = true ↔
        r.creator = none ∧ startswith (r.name.getD "") "databricks-" = true)
      ∧ is_databricks_managed
          { id := "databricks-foo", name := some "databricks-foo",
            state := "READY", creator := none, creationTime := none } = true
      ∧ is_databricks_managed
          { id := "databricks-foo", name := some "databricks-foo",
            state := "READY", creator := some "alice", creationTime := none } = false
      ∧ is_databricks_managed
          { id := "foo", name := some "foo",
            state := "READY", creator := none, creationTime := none } = false := by
  refine ⟨?_, by decide, by decide, by decide⟩
  intro r
  simp [is_databricks_managed, Option.isNone_iff_eq_none]

/-- C8: `check_resources` is idempotent and a pure function of the
listing and the configuration: a second run on the same listing returns
the same violations (the method resets `self.violations` before the
loop), and the result never depends on whatever violations the handler
state carried before the call. -/
theorem check_resources_idempotent
    (getId getDetails : ResourceRecord → String) (s : HandlerState)
    (rs : List ResourceRecord) :
    (check_resources_method getId getDetails
        (check_resources_method getId getDetails s rs).1 rs).2
      = (check_resources_method getId getDetails s rs).2
    ∧ ∀ vs0 : List Violation,
        (check_resources_method getId getDetails
            { s with violations := vs0 } rs).2
          = (check_resources_method getId getDetails s rs).2 := by
  constructor
  · rfl
  · intro vs0; rfl

/-- C7: with an empty violation list, `handle_violations` returns the
success report with violation count `0` and no actions, for every
action mode and every delete oracle (so neither `delete_resource` nor
the alert exception can be involved). -/
theorem handle_violations_empty (f : String → DeleteOutcome) (mode : String) :
    handle_violations f [] mode
      = .ok ({ status := "success", violations := 0, actions := [] }, []) := rfl

/-- C6 counterexample: with an empty violation sequence and the
unrecognised mode `"bogus"`, `handle_violations` does not raise the
invalid-mode error — the empty-violations early return fires first and
the call returns the success report. -/
theorem handle_violations_invalid_mode_empty_ok :
    handle_violations (fun _ => DeleteOutcome.ok) [] "bogus"
      = .ok ({ status := "success", violations := 0, actions := [] }, []) := rfl

/-- C6 (amended): for every NON-empty violation sequence, an
`action_mode` other than `'delete'` and `'alert'` makes
`handle_violations` fail with the invalid-mode error, before any
per-resource work (the result does not depend on the delete oracle). -/
theorem handle_violations_invalid_mode (f g : String → DeleteOutcome)
    (vs : List Violation) (mode : String) (hne : vs ≠ [])
    (hd : mode ≠ "delete") (ha : mode ≠ "alert") :
    handle_violations f vs mode
        = .error (.invalidMode
            ("Invalid action_mode: " ++ mode ++ ". Must be 'delete' or 'alert'"))
      ∧ handle_violations f vs mode = handle_violations g vs mode := by
  have h1 : vs.isEmpty = false := by
    cases vs with
    | nil => exact absurd rfl hne
    | cons v rest => rfl
  have h2 : (mode == "delete") = false := by
    simpa using hd
  have h3 : (mode == "alert") = false := by
    simpa using ha
  unfold handle_violations
  rw [h1, h2, h3]
  exact ⟨rfl, rfl⟩

/-- C6 witness: the amended theorem applied to one concrete violation
and the concrete mode `"bogus"`. -/
theorem handle_violations_invalid_mode_witness :
    ([⟨"ep1", "Name: ep1", none⟩] : List Violation) ≠ []
      ∧ ("bogus" : String) ≠ "delete"
      ∧ ("bogus" : String) ≠ "alert"
      ∧ (handle_violations (fun _ => DeleteOutcome.ok)
            [⟨"ep1", "Name: ep1", none⟩] "bogus"
          = .error (.invalidMode
              ("Invalid action_mode: " ++ "bogus" ++ ". Must be 'delete' or 'alert'"))
        ∧ handle_violations (fun _ => DeleteOutcome.ok)
            [⟨"ep1", "Name: ep1", none⟩] "bogus"
          = handle_violations (fun _ => DeleteOutcome.failed)
              [⟨"ep1", "Name: ep1", none⟩] "bogus") :=
  ⟨by decide, by decide, by decide,
    handle_violations_invalid_mode (fun _ => DeleteOutcome.ok)
      (fun _ => DeleteOutcome.failed) [⟨"ep1", "Name: ep1", none⟩] "bogus"
      (by decide) (by decide) (by decide)⟩

/-- C5: the config loader maps a bare JSON array to that whitelist with
the managed filter disabled; an object with a `whitelist` key to that
whitelist plus the optional `ignore_databricks_managed` value
(defaulting to `false`); an object without the key, and every
non-array non-object value, to the malformed-config error. -/
theorem load_resource_config_shapes :
    (∀ l : List Json, load_resource_config (.arr l)
        = .ok { whitelist := .arr l, ignore_databricks_managed := .bool false })
      ∧ (∀ (fields : List (String × Json)) (w : Json),
          Json.lookup fields "whitelist" = some w →
          load_resource_config (.obj fields)
            = .ok { whitelist := w,
                    ignore_databricks_managed :=
                      (Json.lookup fields "ignore_databricks_managed").getD
                        (.bool false) })
      ∧ (∀ fields : List (String × Json),
          Json.lookup fields "whitelist" = none →
          load_resource_config (.obj fields)
            = .error "Object format must contain 'whitelist' key")
      ∧ (∀ n : Int, load_resource_config (.num n)
          = .error "Invalid config format. Expected array or object with 'whitelist' key")
      ∧ (∀ s : String, load_resource_config (.str s)
          = .error "Invalid config format. Expected array or object with 'whitelist' key")
      ∧ (∀ b : Bool, load_resource_config (.bool b)
          = .error "Invalid config format. Expected array or object with 'whitelist' key")
      ∧ load_resource_config .null
          = .error "Invalid config format. Expected array or object with 'whitelist' key" := by
  refine ⟨fun l => rfl, ?_, ?_, fun n => rfl, fun s => rfl, fun b => rfl, rfl⟩
  · intro fields w h
    simp only [load_resource_config]
    rw [h]
  · intro fields h
    simp only [load_resource_config]
    rw [h]

/-- C5 witness: the loader evaluated on the four example inputs of the
spec — `["a","b"]`, `{"whitelist":["a"],"ignore_databricks_managed":true}`,
`{}` and `42`. -/
theorem load_resource_config_shapes_witness :
    load_resource_config (.arr [.str "a", .str "b"])
        = .ok { whitelist := .arr [.str "a", .str "b"],
                ignore_databricks_managed := .bool false }
      ∧ Json.lookup [("whitelist", Json.arr [Json.str "a"]),
            ("ignore_databricks_managed", Json.bool true)] "whitelist"
          = some (Json.arr [Json.str "a"])
      ∧ load_resource_config (.obj [("whitelist", Json.arr [Json.str "a"]),
            ("ignore_databricks_managed", Json.bool true)])
          = .ok { whitelist := Json.arr [Json.str "a"],
                  ignore_databricks_managed :=
                    (Json.lookup [("whitelist", Json.arr [Json.str "a"]),
                        ("ignore_databricks_managed", Json.bool true)]
                      "ignore_databricks_managed").getD (.bool false) }
      ∧ Json.lookup ([] : List (String × Json)) "whitelist" = none
      ∧ load_resource_config (.obj [])
          = .error "Object format must contain 'whitelist' key"
      ∧ load_resource_config (.num 42)
          = .error "Invalid config format. Expected array or object with 'whitelist' key" :=
  ⟨load_resource_config_shapes.1 [.str "a", .str "b"],
    rfl,
    load_resource_config_shapes.2.1
      [("whitelist", Json.arr [Json.str "a"]),
        ("ignore_databricks_managed", Json.bool true)]
      (Json.arr [Json.str "a"]) rfl,
    rfl,
    load_resource_config_shapes.2.2.1 [] rfl,
    load_resource_config_shapes.2.2.2.1 42⟩

/-- C9: with `dry_run` set, the monitor run never reaches the action
dispatcher: whatever the listing, the oracle, the mode and the
violation count, the result is a plain success carrying no action
report — so `delete_resource` is never invoked and the alert error is
never raised. -/
theorem dry_run_no_action (getId getDetails : ResourceRecord → String)
    (wl : List String) (ig : Bool) (rs : List ResourceRecord)
    (f : String → DeleteOutcome) (mode : String) :
    runMonitor getId getDetails wl ig rs f mode true = .ok none := by
  unfold runMonitor
  cases h : (check_resources getId getDetails wl ig rs).isEmpty <;> simp [h]

/-- C10: a platform object lacking a `creator` attribute yields a
record whose `creator` field is the string sentinel `'UNKNOWN'` (not an
absent value), for both the apps and the model-endpoints listing, and
the managed heuristic is therefore false on such a record whatever its
name. -/
theorem unknown_creator_sentinel (a : PlatformApp) (e : PlatformEndpoint)
    (ha : a.creator = none) (he : e.creator = none) :
    (appRecord a).creator = some "UNKNOWN"
      ∧ is_databricks_managed (appRecord a) = false
      ∧ (endpointRecord e).creator = some "UNKNOWN"
      ∧ is_databricks_managed (endpointRecord e) = false := by
  refine ⟨?_, ?_, ?_, ?_⟩ <;>
    simp [appRecord, endpointRecord, is_databricks_managed, ha, he]

/-- C10 witness: a concrete app and endpoint without a creator
attribute, both named with the reserved prefix. -/
theorem unknown_creator_sentinel_witness :
    sampleApp.creator = none
      ∧ sampleEndpoint.creator = none
      ∧ ((appRecord sampleApp).creator = some "UNKNOWN"
        ∧ is_databricks_managed (appRecord sampleApp) = false
        ∧ (endpointRecord sampleEndpoint).creator = some "UNKNOWN"
        ∧ is_databricks_managed (endpointRecord sampleEndpoint) = false) :=
  ⟨rfl, rfl, unknown_creator_sentinel sampleApp sampleEndpoint rfl rfl⟩

/-- Status computed by the delete loop: `success` iff every per-id
outcome is a clean success, `partial_failure` otherwise. -/
theorem deleteLoop_status (f : String → DeleteOutcome) :
    ∀ vs : List Violation,
      (deleteLoop f vs).1
        = if vs.all (fun v => f v.id == DeleteOutcome.ok)
          then "success" else "partial_failure" := by
  intro vs
  induction vs with
  | nil => rfl
  | cons v rest ih =>
    rw [deleteLoop]
    cases h : f v.id with
    | ok => simp [h, ih]
    | failed => simp [h]
    | err e => simp [h]

/-- Per-violation outcome recorded by the delete loop: each returned
violation is its input violation with `action_taken` set from its own
delete outcome, position by position. -/
theorem deleteLoop_updates (f : String → DeleteOutcome) :
    ∀ vs : List Violation,
      (deleteLoop f vs).2.2
        = vs.map (fun v => { v with action_taken := some (outcomeLabel (f v.id)) }) := by
  intro vs
  induction vs with
  | nil => rfl
  | cons v rest ih =>
    rw [deleteLoop]
    cases h : f v.id with
    | ok => simp [h, ih, outcomeLabel]
    | failed => simp [h, ih, outcomeLabel]
    | err e => simp [h, ih, outcomeLabel]

/-- The delete loop records one action string per violation: no failure
aborts the processing of the remaining violations. -/
theorem deleteLoop_actions_length (f : String → DeleteOutcome) :
    ∀ vs : List Violation, (deleteLoop f vs).2.1.length = vs.length := by
  intro vs
  induction vs with
  | nil => rfl
  | cons v rest ih =>
    rw [deleteLoop]
    cases h : f v.id with
    | ok => simp [h, ih]
    | failed => simp [h, ih]
    | err e => simp [h, ih]

/-- C3: in delete mode on a non-empty violation sequence,
`handle_violations` attempts every violation (one action string per
violation, so no failure aborts the rest), each violation's
`action_taken` becomes `deleted` / `delete_failed` / `error` according
to its own outcome only, and the report status is `partial_failure` iff
at least one outcome is not a clean success, `success` otherwise. -/
theorem handle_violations_delete (f : String → DeleteOutcome)
    (vs : List Violation) (hne : vs ≠ []) :
    handle_violations f vs "delete"
        = .ok ({ status := if vs.all (fun v => f v.id == DeleteOutcome.ok)
                           then "success" else "partial_failure",
                 violations := vs.length,
                 actions := (deleteLoop f vs).2.1 },
               vs.map (fun v => { v with action_taken := some (outcomeLabel (f v.id)) }))
      ∧ (deleteLoop f vs).2.1.length = vs.length := by
  have h1 : vs.isEmpty = false := by
    cases vs with
    | nil => exact absurd rfl hne
    | cons v rest => rfl
  refine ⟨?_, deleteLoop_actions_length f vs⟩
  unfold handle_violations
  rw [h1, deleteLoop_status, deleteLoop_updates]
  rfl

/-- C3 witness: three concrete violations whose deletions respectively
succeed, fail cleanly and raise; the report gets `partial_failure` and
the three `action_taken` values are `deleted`, `delete_failed`,
`error`. -/
theorem handle_violations_delete_witness :
    sampleViolations ≠ []
      ∧ (handle_violations sampleOracle sampleViolations "delete"
          = .ok ({ status := if sampleViolations.all
                                (fun v => sampleOracle v.id == DeleteOutcome.ok)
                             then "success" else "partial_failure",
                   violations := sampleViolations.length,
                   actions := (deleteLoop sampleOracle sampleViolations).2.1 },
                 sampleViolations.map
                   (fun v =>
                     { v with action_taken := some (outcomeLabel (sampleOracle v.id)) }))
            ∧ (deleteLoop sampleOracle sampleViolations).2.1.length
              = sampleViolations.length) :=
  ⟨by decide,
    handle_violations_delete sampleOracle sampleViolations (by decide)⟩

/-- Accumulator lemma for `String.intercalate.go`: a common prefix of
the accumulator factors out. -/
theorem intercalate_go_factor (s pre : String) :
    ∀ (l : List String) (acc : String),
      String.intercalate.go (pre ++ acc) s l
        = pre ++ String.intercalate.go acc s l := by
  intro l
  induction l with
  | nil =>
    intro acc
    simp [String.intercalate.go]
  | cons a as ih =>
    intro acc
    rw [String.intercalate.go, String.intercalate.go]
    have h : pre ++ acc ++ s ++ a = pre ++ (acc ++ s ++ a) := by
      simp [String.append_assoc]
    rw [h]
    exact ih (acc ++ s ++ a)

/-- Peeling the head off a non-empty `String.intercalate`. -/
theorem intercalate_cons_of_ne (s a : String) (l : List String) (h : l ≠ []) :
    String.intercalate s (a :: l) = a ++ s ++ String.intercalate s l := by
  cases l with
  | nil => exact absurd rfl h
  | cons b bs =>
    show String.intercalate.go a s (b :: bs) = a ++ s ++ String.intercalate.go b s bs
    rw [String.intercalate.go]
    exact intercalate_go_factor s (a ++ s) bs b

/-- `String.intercalate` distributes over the append of two non-empty
lists, inserting one separator in between. -/
theorem intercalate_append_of_ne (s : String) :
    ∀ (l1 l2 : List String), l1 ≠ [] → l2 ≠ [] →
      String.intercalate s (l1 ++ l2)
        = String.intercalate s l1 ++ s ++ String.intercalate s l2 := by
  intro l1
  induction l1 with
  | nil => intro l2 h1 _; exact absurd rfl h1
  | cons a as ih =>
    intro l2 _ h2
    cases as with
    | nil =>
      rw [List.singleton_append, intercalate_cons_of_ne s a l2 h2]
      rfl
    | cons b bs =>
      have hne : (b :: bs) ≠ [] := by simp
      rw [List.cons_append,
        intercalate_cons_of_ne s a ((b :: bs) ++ l2) (by simp),
        intercalate_cons_of_ne s a (b :: bs) hne,
        ih l2 hne h2]
      simp [String.append_assoc]

/-- C4: in alert mode on a non-empty violation sequence,
`handle_violations` performs no per-resource action (the result does
not depend on the delete oracle) and always fails with a single alert
error whose message lists, one per line and in input order, one
`- id: details` line per violation, between the count header and the
closing request line. -/
theorem handle_violations_alert (f g : String → DeleteOutcome)
    (vs : List Violation) (hne : vs ≠ []) :
    handle_violations f vs "alert"
        = .error (.alert (String.intercalate "\n"
            (("ALERT: Found " ++ toString vs.length ++ " unauthorized resources:")
              :: (vs.map fun v => "- " ++ v.id ++ ": " ++ v.details)
              ++ ["", "Please review and take appropriate action."])))
      ∧ handle_violations f vs "alert" = handle_violations g vs "alert" := by
  have h1 : vs.isEmpty = false := by
    cases vs with
    | nil => exact absurd rfl hne
    | cons v rest => rfl
  have halert : ∀ h : String → DeleteOutcome,
      handle_violations h vs "alert" = .error (.alert (alertMessage vs)) := by
    intro h
    unfold handle_violations
    rw [h1]
    rfl
  refine ⟨?_, (halert f).trans (halert g).symm⟩
  rw [halert f]
  have hlines : vs.map (fun v => "- " ++ v.id ++ ": " ++ v.details) ≠ [] := by
    cases vs with
    | nil => exact absurd rfl hne
    | cons v rest => simp
  have htail : (vs.map (fun v => "- " ++ v.id ++ ": " ++ v.details))
      ++ ["", "Please review and take appropriate action."] ≠ [] := by
    simp
  rw [List.cons_append, intercalate_cons_of_ne _ _ _ htail,
    intercalate_append_of_ne _ _ _ hlines (by simp)]
  have l3 : String.intercalate "\n" ["", "Please review and take appropriate action."]
      = "\nPlease review and take appropriate action." := rfl
  have l1 : (" unauthorized resources:\n" : String)
      = " unauthorized resources:" ++ "\n" := rfl
  have l2 : ("\n\nPlease review and take appropriate action." : String)
      = "\n" ++ "\nPlease review and take appropriate action." := rfl
  rw [l3]
  unfold alertMessage
  rw [l1, l2]
  simp [String.append_assoc]

/-- C4 witness: the alert theorem applied to the three sample
violations and two distinct delete oracles. -/
theorem handle_violations_alert_witness :
    sampleViolations ≠ []
      ∧ (handle_violations sampleOracle sampleViolations "alert"
          = .error (.alert (String.intercalate "\n"
              (("ALERT: Found " ++ toString sampleViolations.length
                  ++ " unauthorized resources:")
                :: (sampleViolations.map fun v => "- " ++ v.id ++ ": " ++ v.details)
                ++ ["", "Please review and take appropriate action."])))
        ∧ handle_violations sampleOracle sampleViolations "alert"
          = handle_violations (fun _ => DeleteOutcome.ok) sampleViolations "alert") :=
  ⟨by decide,
    handle_violations_alert sampleOracle (fun _ => DeleteOutcome.ok)
      sampleViolations (by decide)⟩

end DRM
